import Mathlib

/-!
Verification development for the monitoring-client telemetry agent
(`src/python/src/linux/CPU.py`, `src/python/src/linux/linux.py`,
`src/python/src/windows/windows.py`).

The Python sources are shallowly embedded: every external effect (file
reads, subprocess invocations, optional-library calls) is an explicit
field of an environment record, `None`-able Python values become
`Option`, Python exceptions become `Except Unit`, and Python floats/ints
are modelled as `ℚ` (with explicit truncation where the source calls
`int(...)`).  Directory enumerations that the source wraps in
`sorted(...)` are modelled as the environment providing the entries in
that enumeration order.
-/

set_option maxHeartbeats 1000000

/-- Characters treated as whitespace by Python's `str.strip()` / `\s`. -/
def isPySpace (c : Char) : Bool :=
  c = ' ' || c = '\t' || c = '\n' || c = '\r' || c = '\x0c' || c = '\x0b'

/-- Strip the characters selected by `p` from both ends of a string
(Python `str.strip(chars)`). -/
def stripChars (p : Char → Bool) (s : String) : String :=
  ⟨((s.data.dropWhile p).reverse.dropWhile p).reverse⟩

/-- Python `str.strip()` (whitespace on both ends). -/
def pyStrip (s : String) : String := stripChars isPySpace s

/-- Python `str.lower()` restricted to ASCII, which is all the source compares. -/
def lowerStr (s : String) : String := ⟨s.data.map Char.toLower⟩

/-- Python `s.startswith(pre)`. -/
def strStarts (pre s : String) : Bool := pre.data.isPrefixOf s.data

/-- Split a character list on a single separator character; the list-level
core of Python `str.split(sep)` for one-character separators. -/
def splitOnChar (c : Char) : List Char → List (List Char)
  | [] => [[]]
  | x :: xs =>
    if x = c then [] :: splitOnChar c xs
    else
      match splitOnChar c xs with
      | h :: t => (x :: h) :: t
      | [] => [[x]]

/-- Split a string into its lines; models iterating over the lines of a
file or `str.splitlines()` for newline-separated text. -/
def splitLinesAll (s : String) : List String := (splitOnChar '\n' s.data).map String.mk

/-- Only the first line of a string (`str.splitlines()[0]` on non-empty text). -/
def firstLine (s : String) : String := ⟨s.data.takeWhile (· ≠ '\n')⟩

/-- Python `str.split()` with no argument: split on whitespace runs,
dropping empty fields. -/
def splitWsAux : List Char → List Char → List String
  | [], acc => if acc.isEmpty then [] else [⟨acc.reverse⟩]
  | c :: cs, acc =>
    if isPySpace c then
      if acc.isEmpty then splitWsAux cs [] else ⟨acc.reverse⟩ :: splitWsAux cs []
    else splitWsAux cs (c :: acc)

/-- Python `str.split()` with no argument. -/
def splitWs (s : String) : List String := splitWsAux s.data []

/-- Numeric value of a list of decimal digit characters. -/
def digitsToNat (l : List Char) : Nat := l.foldl (fun a c => a * 10 + (c.toNat - 48)) 0

/-- Value of an integer-part/fraction-part pair of digit lists. -/
def decimalVal (ip fp : List Char) : ℚ :=
  (digitsToNat ip : ℚ) + (digitsToNat fp : ℚ) / ((10 : ℚ) ^ fp.length)

/-- Python `int(x)` on a float: truncation toward zero. -/
def pyInt (q : ℚ) : ℤ := Int.tdiv q.num (q.den : ℤ)

/-- Unsigned part of Python `float(str)` on decimal numerals: digits with an
optional decimal point (`"2500"`, `"2500.5"`, `"5."`, `".5"`).  Exponent
notation and `inf`/`nan`, which the telemetry sources never produce, are
not modelled and fail like any other malformed numeral. -/
def parseFloatCore (l : List Char) : Option ℚ :=
  let d1 := l.takeWhile (·.isDigit)
  let r1 := l.dropWhile (·.isDigit)
  if r1.isEmpty then
    if d1.isEmpty then none else some (decimalVal d1 [])
  else if r1.head? = some '.' then
    let d2 := r1.tail.takeWhile (·.isDigit)
    let r3 := r1.tail.dropWhile (·.isDigit)
    if r3.isEmpty then
      if d1.isEmpty && d2.isEmpty then none else some (decimalVal d1 d2)
    else none
  else none

/-- Python `float(str)`: strips whitespace, handles an optional sign, and
parses a decimal numeral; returns `none` where `float(...)` raises. -/
def parseFloat (s : String) : Option ℚ :=
  let l := (pyStrip s).data
  if l.head? = some '-' then (parseFloatCore l.tail).map (fun q => -q)
  else if l.head? = some '+' then parseFloatCore l.tail
  else parseFloatCore l

/-- One attempted match of the regex `[-+]?\d*\.?\d+` anchored at the head
of the list, with the greedy/backtracking semantics of Python `re`:
digits, then an optional fraction (preferring the longer match). -/
def regexNumCore (l : List Char) : Option ℚ :=
  let d1 := l.takeWhile (·.isDigit)
  let r1 := l.dropWhile (·.isDigit)
  if r1.head? = some '.' then
    let d2 := r1.tail.takeWhile (·.isDigit)
    if !d2.isEmpty then some (decimalVal d1 d2)
    else if !d1.isEmpty then some (decimalVal d1 [])
    else none
  else if !d1.isEmpty then some (decimalVal d1 []) else none

/-- `regexNumCore` with the optional leading sign of `[-+]?\d*\.?\d+`. -/
def regexNumAt (l : List Char) : Option ℚ :=
  if l.head? = some '-' then (regexNumCore l.tail).map (fun q => -q)
  else if l.head? = some '+' then regexNumCore l.tail
  else regexNumCore l

/-- Leftmost match of `[-+]?\d*\.?\d+` in the list, i.e. the value of
`re.findall(r"[-+]?\d*\.?\d+", s)[0]` when a match exists. -/
def firstNum : List Char → Option ℚ
  | [] => none
  | c :: cs =>
    match regexNumAt (c :: cs) with
    | some q => some q
    | none => firstNum cs

/-- Embedding of `_safe_float` (CPU.py lines 135-145) on a string argument:
extract the first decimal number in the string, `None` when there is none.
(`_safe_float(None)` is `None`; call sites use `Option.bind`.) -/
def safeFloat (s : String) : Option ℚ := firstNum s.data

/-- Python `or` on two optional floats: the left value when it is truthy
(present and non-zero), otherwise the right operand unchanged. -/
def pyOr (a b : Option ℚ) : Option ℚ :=
  match a with
  | some q => if q ≠ 0 then some q else b
  | none => b

/-- Python truthiness of an optional string (`None` and `""` are falsy). -/
def truthyS : Option String → Bool
  | some s => s != ""
  | none => false

/-- Python `or` on two optional strings. -/
def pyOrStr (a b : Option String) : Option String :=
  if truthyS a then a else b

/-- Python `min(l)` for a non-empty list, `None` guard at call sites. -/
def listMin : List ℚ → Option ℚ
  | [] => none
  | x :: xs => some (xs.foldl min x)

/-- Python `max(l)` for a non-empty list, `None` guard at call sites. -/
def listMax : List ℚ → Option ℚ
  | [] => none
  | x :: xs => some (xs.foldl max x)

/-- Lexicographic comparison of character lists by code point, the order
Python uses to compare strings. -/
def lexLe : List Char → List Char → Bool
  | [], _ => true
  | _ :: _, [] => false
  | a :: as, b :: bs => if a < b then true else if b < a then false else lexLe as bs

/-- Python string `<=`: lexicographic by code point. -/
def strLe (a b : String) : Prop := lexLe a.data b.data = true

instance : DecidableRel strLe := fun a b => instDecidableEqBool (lexLe a.data b.data) true

theorem lexLe_total : ∀ as bs : List Char, lexLe as bs = true ∨ lexLe bs as = true := by
  intro as
  induction as with
  | nil => intro bs; left; rfl
  | cons a as ih =>
    intro bs
    cases bs with
    | nil => right; rfl
    | cons b bs =>
      rcases lt_trichotomy a b with h | h | h
      · left; simp [lexLe, h]
      · subst h
        rcases ih bs with h2 | h2
        · left; simp [lexLe, h2, lt_irrefl]
        · right; simp [lexLe, h2, lt_irrefl]
      · right; simp [lexLe, h]

theorem lexLe_trans : ∀ as bs cs : List Char,
    lexLe as bs = true → lexLe bs cs = true → lexLe as cs = true := by
  intro as
  induction as with
  | nil => intro bs cs _ _; rfl
  | cons a as ih =>
    intro bs cs h1 h2
    cases bs with
    | nil => simp [lexLe] at h1
    | cons b bs =>
      cases cs with
      | nil => simp [lexLe] at h2
      | cons c cs =>
        simp only [lexLe] at h1 h2 ⊢
        by_cases hab : a < b
        · by_cases hbc : b < c
          · simp [lt_trans hab hbc]
          · by_cases hcb : c < b
            · rw [if_neg hbc, if_pos hcb] at h2; exact absurd h2 (by simp)
            · have : b = c := le_antisymm (not_lt.mp hcb) (not_lt.mp hbc)
              subst this; simp [hab]
        · by_cases hba : b < a
          · rw [if_neg hab, if_pos hba] at h1; exact absurd h1 (by simp)
          · have : a = b := le_antisymm (not_lt.mp hba) (not_lt.mp hab)
            subst this
            rw [if_neg hab, if_neg hab] at h1
            by_cases hbc : a < c
            · simp [hbc]
            · by_cases hcb : c < a
              · rw [if_neg hbc, if_pos hcb] at h2; exact absurd h2 (by simp)
              · have : a = c := le_antisymm (not_lt.mp hcb) (not_lt.mp hbc)
                subst this
                rw [if_neg hbc, if_neg hbc] at h2
                simp [hbc, ih _ _ h1 h2]

theorem lexLe_antisymm : ∀ as bs : List Char,
    lexLe as bs = true → lexLe bs as = true → as = bs := by
  intro as
  induction as with
  | nil =>
    intro bs _ h2
    cases bs with
    | nil => rfl
    | cons b bs => simp [lexLe] at h2
  | cons a as ih =>
    intro bs h1 h2
    cases bs with
    | nil => simp [lexLe] at h1
    | cons b bs =>
      simp only [lexLe] at h1 h2
      by_cases hab : a < b
      · rw [if_neg (asymm hab), if_pos hab] at h2; exact absurd h2 (by simp)
      · by_cases hba : b < a
        · rw [if_neg hab, if_pos hba] at h1; exact absurd h1 (by simp)
        · have : a = b := le_antisymm (not_lt.mp hba) (not_lt.mp hab)
          subst this
          rw [if_neg hab, if_neg hab] at h1 h2
          rw [ih bs h1 h2]

instance : IsTotal String strLe := ⟨fun a b => lexLe_total a.data b.data⟩

instance : IsTrans String strLe := ⟨fun a b c => lexLe_trans a.data b.data c.data⟩

instance : IsAntisymm String strLe :=
  ⟨fun a b h1 h2 => by
    cases a; cases b
    exact congrArg String.mk (lexLe_antisymm _ _ h1 h2)⟩

/-- Python `sorted(set(l))` for strings: the ascending enumeration of the
distinct elements. -/
def sortedSet (l : List String) : List String :=
  List.insertionSort strLe l.dedup

/-! ## Embedding of `CPU.py`: the sysfs cpufreq adapter -/

/-- One cpufreq policy unit (a `policy*` directory under
`/sys/devices/system/cpu/cpufreq`, or a `cpu*/cpufreq` directory for the
per-cpu fallback).  Each field is the text content of the corresponding
file, `none` when the file is missing or unreadable. -/
structure PolicyUnit where
  governorFile : Option String
  minFile : Option String
  maxFile : Option String
  scalingCurFile : Option String
  cpuinfoCurFile : Option String

/-- Governor reported by a unit: the stripped `scaling_governor` content
when non-empty (CPU.py lines 196-201). -/
def policyGov (u : PolicyUnit) : Option String :=
  u.governorFile.bind (fun s =>
    let g := pyStrip s
    if g ≠ "" then some g else none)

/-- Minimum frequency reported by a unit, in MHz: parsed `scaling_min_freq`
content divided by 1000 (CPU.py lines 202-206). -/
def policyMin (u : PolicyUnit) : Option ℚ :=
  u.minFile.bind (fun s => (parseFloat (pyStrip s)).map (· / 1000))

/-- Maximum frequency reported by a unit, in MHz (CPU.py lines 207-211). -/
def policyMax (u : PolicyUnit) : Option ℚ :=
  u.maxFile.bind (fun s => (parseFloat (pyStrip s)).map (· / 1000))

/-- Current-frequency readings contributed by a unit, in MHz: one entry per
readable, parseable file among `scaling_cur_freq` and `cpuinfo_cur_freq`,
in that order (CPU.py lines 212-219). -/
def policyCurrents (u : PolicyUnit) : List ℚ :=
  ((u.scalingCurFile.bind (fun s => (parseFloat (pyStrip s)).map (· / 1000))).toList) ++
  ((u.cpuinfoCurFile.bind (fun s => (parseFloat (pyStrip s)).map (· / 1000))).toList)

/-- Result record of `_sysfs_cpufreq_policy` / `_sysfs_cpufreq_cpu`. -/
structure CpufreqResult where
  governors : List String
  minMhz : Option ℚ
  maxMhz : Option ℚ
  currentMhz : Option ℚ

/-- Embedding of the aggregation performed by `_sysfs_cpufreq_policy`
(CPU.py lines 174-225) and identically by `_sysfs_cpufreq_cpu` (lines
228-274): collect per-unit governors/min/max/current readings, then take
the sorted distinct governors, `min(mins)`, `max(maxs)`, and
`sum(currents)/len(currents)`. -/
def sysfsAgg (units : List PolicyUnit) : CpufreqResult :=
  let mins := units.filterMap policyMin
  let maxs := units.filterMap policyMax
  let curs := units.flatMap policyCurrents
  { governors := sortedSet (units.filterMap policyGov)
    minMhz := listMin mins
    maxMhz := listMax maxs
    currentMhz := if curs.isEmpty then none else some (curs.sum / (curs.length : ℚ)) }

/-! ## Embedding of `CPU.py`: psutil frequency adapter and the resolver chain -/

/-- The object returned by `psutil.cpu_freq()`: current/min/max in MHz. -/
structure FreqObj where
  fcur : ℚ
  fmin : ℚ
  fmax : ℚ

/-- Environment for the parts of `collect_cpu_info` under verification:
whether psutil is importable, the outcome of `psutil.cpu_freq()` (the
call may raise, and may return a falsy object), the enumerated sysfs
cpufreq units, the parsed `lscpu` field map, and the
`systemd-detect-virt --vm` outcome as (return code, stdout). -/
structure CpuPyEnv where
  psutilPresent : Bool
  cpuFreqCall : Except Unit (Option FreqObj)
  sysfsUnits : List PolicyUnit
  lscpu : String → Option String
  detectVirtCmd : Nat × String

/-- Embedding of the `current_mhz` entry computed by `_psutil_cpu_freq`
(CPU.py lines 159-171): `None` when psutil is absent or the call raises
or the object is falsy or its `current` field is falsy, else the value. -/
def psutilFreqCurrent (env : CpuPyEnv) : Option ℚ :=
  if !env.psutilPresent then none
  else
    match env.cpuFreqCall with
    | .error _ => none
    | .ok none => none
    | .ok (some f) => if f.fcur ≠ 0 then some f.fcur else none

/-- The sysfs contribution to the current-frequency cascade. -/
def sysfsCurrentMhz (env : CpuPyEnv) : Option ℚ :=
  (sysfsAgg env.sysfsUnits).currentMhz

/-- Embedding of the resolver line (CPU.py line 396):
`current_mhz = freq_psutil.get("current_mhz") or freq_sysfs.get("current_mhz") or _safe_float(lscpu.get("CPU MHz"))`. -/
def resolvedCurrentMhz (env : CpuPyEnv) : Option ℚ :=
  pyOr (psutilFreqCurrent env) (pyOr (sysfsCurrentMhz env) ((env.lscpu "CPU MHz").bind safeFloat))

/-! ## Embedding of `_detect_hypervisor` (CPU.py lines 316-326) -/

/-- The hypervisor-vendor field as the source resolves it from `lscpu`. -/
def hvVendorField (lscpu : String → Option String) : Option String :=
  pyOrStr (lscpu "Hypervisor vendor") (lscpu "Hypervisor vendor (in short)")

/-- The virtualization-type field as the source resolves it from `lscpu`. -/
def virtTypeField (lscpu : String → Option String) : Option String :=
  pyOrStr (lscpu "Virtualization type") (lscpu "Virtualization")

/-- Result of `_detect_hypervisor`. -/
structure HvResult where
  vendor : Option String
  vtype : Option String
  isVm : Bool

/-- Embedding of `_detect_hypervisor`: the flag is set when either lscpu
field is truthy; otherwise `systemd-detect-virt --vm` is invoked (the
`cmd` pair is its return code and raw stdout, which `_run_cmd` strips)
and a zero exit with non-empty output different from "none"
case-insensitively confirms a VM, with the output captured as vendor. -/
def detectHypervisor (lscpu : String → Option String) (cmd : Nat × String) : HvResult :=
  let hv := hvVendorField lscpu
  let vt := virtTypeField lscpu
  let isVm := truthyS hv || truthyS vt
  if isVm then { vendor := hv, vtype := vt, isVm := true }
  else
    let out := pyStrip cmd.2
    if cmd.1 = 0 ∧ out ≠ "" ∧ lowerStr out ≠ "none" then
      { vendor := some (pyStrip out), vtype := vt, isVm := true }
    else
      { vendor := hv, vtype := vt, isVm := false }

/-! ## Process ranking (linux.py lines 226-242, windows.py lines 277-294) -/

/-- Data the iteration over `psutil.process_iter(attrs=[...])` yields for
one process: optional name, pid, and optional resident-set size (the
`memory_info` attribute may be `None`). -/
structure ProcData where
  name : Option String
  pid : Nat
  memRss : Option Nat

/-- The display string built for one process:
`f"{name} ({pid})"` with `name = info.get("name") or f"pid:{pid}"`. -/
def displayProc (d : ProcData) : String :=
  let n := match d.name with
    | some n => if n ≠ "" then n else "pid:" ++ toString d.pid
    | none => "pid:" ++ toString d.pid
  n ++ " (" ++ toString d.pid ++ ")"

/-- The (rss, display) pairs accumulated by the loop: per-entry failures
(`p.info` raising) are skipped, a missing `memory_info` counts as rss 0. -/
def procPairs (l : List (Except Unit ProcData)) : List (Nat × String) :=
  l.filterMap (fun e =>
    match e with
    | .ok d => some (d.memRss.getD 0, displayProc d)
    | .error _ => none)

/-- Descending-by-rss comparison used to model
`procs.sort(key=lambda x: x[0], reverse=True)` (a stable sort). -/
def memGe (p q : Nat × String) : Prop := q.1 ≤ p.1

instance : DecidableRel memGe := fun p q => Nat.decLe q.1 p.1

instance : IsTotal (Nat × String) memGe := ⟨fun p q => Nat.le_total q.1 p.1⟩

instance : IsTrans (Nat × String) memGe := ⟨fun _ _ _ h1 h2 => le_trans h2 h1⟩

/-- The resolved process summary: pairs sorted descending by rss (stably),
truncated to 10, projected to the display strings. -/
def topProcesses (l : List (Except Unit ProcData)) : List String :=
  ((List.insertionSort memGe (procPairs l)).take 10).map Prod.snd

/-! ## Snapshot values -/

/-- A JSON-like Python value as it appears in the snapshot dictionaries. -/
inductive Value where
  | num (q : ℚ)
  | str (s : String)
  | null
  | list (xs : List Value)
  | dict (fs : List (String × Value))

/-- Linux marker policy: a resolved number, else `0.0`/`0`
(`float(x) if x is not None else 0.0`). -/
def numOr0 (o : Option ℚ) : Value :=
  match o with
  | some q => .num q
  | none => .num 0

/-- Linux marker policy with `int(...)` truncation on the resolved value. -/
def intOr0 (o : Option ℚ) : Value :=
  match o with
  | some q => .num (pyInt q : ℚ)
  | none => .num 0

/-- Windows marker policy: a resolved number, else `None`. -/
def numOrNull (o : Option ℚ) : Value :=
  match o with
  | some q => .num q
  | none => .null

/-- Windows marker policy with `int(...)` truncation on the resolved value. -/
def intOrNull (o : Option ℚ) : Value :=
  match o with
  | some q => .num (pyInt q : ℚ)
  | none => .null

/-! ## Shared gather components -/

/-- Best-effort IP resolution (linux.py lines 20-34, windows.py `_get_ip`):
the UDP-socket trick, then `gethostbyname`, then the loopback fallback. -/
def resolveIp (sock dns : Except Unit String) : String :=
  match sock with
  | .ok s => s
  | .error _ =>
    match dns with
    | .ok s => s
    | .error _ => "127.0.0.1"

/-- Result of the `nvidia-smi --query-gpu=...` invocation, parsed. -/
structure GpuInfo where
  usage : Option ℚ
  frequency : Option ℚ
  temperature : Option ℚ
  model : Option String

/-- Parse the decoded stdout of the `nvidia-smi` query (linux.py lines
94-120, windows.py `_get_gpu_via_nvidia_smi`): strip, take the first
line, split on commas, strip each part, and when at least four parts are
present parse utilization/clock/temperature individually (failures give
`None`) and take a non-empty fourth part as the model. -/
def parseNvidiaOut (outRaw : String) : GpuInfo :=
  let out := pyStrip outRaw
  if out = "" then ⟨none, none, none, none⟩
  else
    let parts := ((splitOnChar ',' (firstLine out).data).map String.mk).map pyStrip
    if parts.length ≥ 4 then
      { usage := parseFloat (parts.getD 0 "")
        frequency := parseFloat (parts.getD 1 "")
        temperature := parseFloat (parts.getD 2 "")
        model := let m := parts.getD 3 ""; if m ≠ "" then some m else none }
    else ⟨none, none, none, none⟩

/-! ## Embedding of `Linux.gather_info` (linux.py lines 11-310) -/

/-- One entry of a psutil `sensors_temperatures()` reading list. -/
structure TempEntry where
  current : ℚ

/-- The object returned by `psutil.virtual_memory()`. -/
structure VMemInfo where
  percent : ℚ
  total : ℚ

/-- The object returned by `psutil.disk_usage(path)`. -/
structure DiskUsageInfo where
  percent : ℚ
  total : ℚ

/-- One entry of `psutil.disk_partitions(all=False)`. -/
structure PartInfo where
  mountpoint : String

/-- The fields of `os.statvfs(path)` the source reads. -/
structure StatvfsInfo where
  f_blocks : Nat
  f_frsize : Nat
  f_bfree : Nat

/-- The uname fields the source reads (`release`, `machine`). -/
structure UnameInfo where
  release : String
  machine : String

/-- Outcomes of the individual psutil calls `Linux.gather_info` makes.
Each call can raise (`Except`); `sensors_temperatures` is additionally
guarded by a `hasattr` check modelled by `hasSensors`.  The temperature
map is the dict `{name: [entries]}` in insertion order. -/
structure PsutilLinuxEnv where
  cpuPercent : Except Unit ℚ
  cpuFreq : Except Unit (Option FreqObj)
  hasSensors : Bool
  sensors : Except Unit (List (String × List TempEntry))
  virtualMemory : Except Unit VMemInfo
  diskPartitions : Except Unit (List PartInfo)
  diskUsage : String → Except Unit DiskUsageInfo
  processIter : Except Unit (List (Except Unit ProcData))
  bootTime : Except Unit ℚ

/-- Environment of one `Linux.gather_info` run: `platform.node()`, the two
IP resolution attempts, the optional psutil module, the
`/sys/class/thermal` listing (directory name with the outcome of reading
its `temp` file, in listing order; `none` when the directory is absent),
the two subprocess outputs, `/proc/mounts` and `/etc/os-release` and
`/proc/cpuinfo` contents (`none` when missing/unreadable), `os.statvfs`,
and `platform.uname()`. -/
structure LinuxEnv where
  node : String
  sockIp : Except Unit String
  dnsIp : Except Unit String
  psutil : Option PsutilLinuxEnv
  thermalDir : Option (List (String × Except Unit String))
  nvidiaSmi : Except Unit String
  lspci : Except Unit String
  procMounts : Option String
  statvfs : String → Except Unit StatvfsInfo
  osRelease : Option String
  uname : Except Unit UnameInfo
  procCpuinfo : Option String

/-- The cpu usage/frequency block (linux.py lines 36-48): with psutil, a
raising `cpu_percent` or `cpu_freq` resets both to `None`; a falsy
`cpu_freq()` result or falsy `current` leaves the frequency `None`;
without psutil the usage is set to `0.0`. -/
def linuxCpuUsageFreq (env : LinuxEnv) : Option ℚ × Option ℚ :=
  match env.psutil with
  | none => (some 0, none)
  | some ps =>
    match ps.cpuPercent with
    | .error _ => (none, none)
    | .ok u =>
      match ps.cpuFreq with
      | .error _ => (none, none)
      | .ok none => (some u, none)
      | .ok (some f) => (some u, if f.fcur ≠ 0 then some f.fcur else none)

/-- The psutil part of the temperature block (linux.py lines 53-65): the
first non-empty reading list among the keys `coretemp`, `cpu_thermal`,
`k10temp`, else the first non-empty reading list in dict order. -/
def linuxTempPsutil (temps : List (String × List TempEntry)) : Option ℚ :=
  let byKey := [ "coretemp", "cpu_thermal", "k10temp" ].findSome? (fun k =>
    match temps.lookup k with
    | some (e :: _) => some e.current
    | _ => none)
  match byKey with
  | some v => some v
  | none =>
    temps.findSome? (fun kv =>
      match kv.2 with
      | e :: _ => some e.current
      | [] => none)

/-- Millidegree disambiguation (linux.py lines 78-80): readings above 1000
are divided by 1000, others are kept. -/
def thermalNorm (v : ℚ) : ℚ := if v > 1000 then v / 1000 else v

/-- Name-ordered scan of the thermal zones (linux.py lines 67-84): the
first `thermal_zone*` entry whose `temp` file is readable, non-empty
after stripping and parseable yields the normalized reading; per-zone
failures continue the scan. -/
def linuxThermalScan (zones : List (String × Except Unit String)) : Option ℚ :=
  (List.insertionSort (fun a b : String × Except Unit String => strLe a.1 b.1) zones).findSome?
    (fun z =>
      if strStarts "thermal_zone" z.1 then
        match z.2 with
        | .ok raw =>
          let r := pyStrip raw
          if r ≠ "" then (parseFloat r).map thermalNorm else none
        | .error _ => none
      else none)

/-- The whole temperature block (linux.py lines 50-86): one `try` covers
both the psutil part and the sysfs fallback, so a raising
`sensors_temperatures()` call aborts the block with `None`; the sysfs
fallback only runs when the psutil part produced nothing. -/
def linuxCpuTemperature (env : LinuxEnv) : Option ℚ :=
  let psutilPart : Except Unit (Option ℚ) :=
    match env.psutil with
    | some ps =>
      if ps.hasSensors then
        match ps.sensors with
        | .error _ => .error ()
        | .ok temps => .ok (linuxTempPsutil temps)
      else .ok none
    | none => .ok none
  match psutilPart with
  | .error _ => none
  | .ok (some v) => some v
  | .ok none =>
    match env.thermalDir with
    | none => none
    | some zones => linuxThermalScan zones

/-- Word characters for the `\b` boundaries of `re.search(r"\b(VGA|3D)\b", ...)`. -/
def isWordChar (c : Char) : Bool := c.isAlphanum || c = '_'

/-- Case-insensitive match of the lowercase word `w` at the head of `l`. -/
def matchCI : List Char → List Char → Bool
  | [], _ => true
  | _ :: _, [] => false
  | a :: as, b :: bs => (Char.toLower b = a) && matchCI as bs

/-- Scan for the word `w` (given lowercase) with word boundaries on both
sides, tracking the previous character. -/
def scanWord (w : List Char) : Option Char → List Char → Bool
  | _, [] => false
  | prev, c :: cs =>
    ((match prev with
      | none => true
      | some p => !isWordChar p) &&
     matchCI w (c :: cs) &&
     (match (c :: cs).drop w.length with
      | [] => true
      | d :: _ => !isWordChar d)) ||
    scanWord w (some c) cs

/-- Whether `re.search(r"\b(VGA|3D)\b", line, re.IGNORECASE)` matches. -/
def hasVgaWord (line : String) : Bool :=
  scanWord "vga".data none line.data || scanWord "3d".data none line.data

/-- The `lspci -mm` fallback for the GPU model (linux.py lines 123-134):
the last quote/space-stripped tab-field of the first VGA/3D line having
any non-blank field. -/
def lspciModel (txt : String) : Option String :=
  (splitLinesAll txt).findSome? (fun line =>
    if hasVgaWord line then
      let parts := ((splitOnChar '\t' line.data).map String.mk).filterMap (fun p =>
        if pyStrip p ≠ "" then some (stripChars (fun c => c = '"' || c = ' ') p) else none)
      parts.getLast?
    else none)

/-- The GPU block (linux.py lines 88-134): `nvidia-smi` output parsed when
the invocation succeeds (even if empty), else the `lspci` model-only
fallback. -/
def linuxGpu (env : LinuxEnv) : GpuInfo :=
  match env.nvidiaSmi with
  | .ok o => parseNvidiaOut o
  | .error _ =>
    match env.lspci with
    | .ok t => ⟨none, none, none, lspciModel t⟩
    | .error _ => ⟨none, none, none, none⟩

/-- The memory block (linux.py lines 136-149). -/
def linuxMemory (env : LinuxEnv) : Option ℚ × Option ℚ :=
  match env.psutil with
  | some ps =>
    match ps.virtualMemory with
    | .ok vm => (some vm.percent, some vm.total)
    | .error _ => (none, none)
  | none => (none, none)

/-- One disk dictionary of the Linux snapshot; `intSize` selects the
`int(du.total)` variant used for enumerated partitions. -/
def linuxDiskDict (mp : String) (usage size : ℚ) : Value :=
  .dict [( "mountpoint", .str mp), ( "usage", .num usage), ( "size", .num size)]

/-- The psutil disk enumeration (linux.py lines 156-190): partitions
deduplicated by mountpoint (marked seen before the usage query), usage
failures skipped, with a root-only fallback when nothing was collected. -/
def linuxDisksPsutil (ps : PsutilLinuxEnv) : List Value :=
  let parts := match ps.diskPartitions with
    | .ok l => l
    | .error _ => []
  let step := parts.foldl (fun (acc : List Value × List String) part =>
    let mp := part.mountpoint
    if mp ∈ acc.2 then acc
    else
      let seen := mp :: acc.2
      match ps.diskUsage mp with
      | .ok du => (acc.1 ++ [linuxDiskDict mp du.percent ((pyInt du.total : ℤ) : ℚ)], seen)
      | .error _ => (acc.1, seen)) ([], [])
  if step.1.isEmpty then
    match ps.diskUsage "/" with
    | .ok du => [linuxDiskDict "/" du.percent du.total]
    | .error _ => []
  else step.1

/-- The `/proc/mounts` + `statvfs` fallback (linux.py lines 192-221):
the sorted set of mount points, pseudo-filesystems under `/proc` and
`/sys` skipped, statvfs failures skipped. -/
def linuxDisksMounts (env : LinuxEnv) : List Value :=
  match env.procMounts with
  | none => []
  | some content =>
    let mounts := sortedSet ((splitLinesAll content).filterMap (fun line =>
      let parts := splitWs line
      if parts.length ≥ 2 then some (parts.getD 1 "") else none))
    mounts.filterMap (fun mp =>
      if strStarts "/proc" mp || strStarts "/sys" mp then none
      else
        match env.statvfs mp with
        | .error _ => none
        | .ok st =>
          let total : ℚ := (st.f_blocks : ℚ) * (st.f_frsize : ℚ)
          let free : ℚ := (st.f_bfree : ℚ) * (st.f_frsize : ℚ)
          let percent : ℚ := if total > 0 then (total - free) / total * 100 else 0
          some (linuxDiskDict mp percent total))

/-- The disks block (linux.py lines 151-224). -/
def linuxDisks (env : LinuxEnv) : List Value :=
  match env.psutil with
  | some ps => linuxDisksPsutil ps
  | none => linuxDisksMounts env

/-- The processes block (linux.py lines 226-242). -/
def linuxProcesses (env : LinuxEnv) : List String :=
  match env.psutil with
  | none => []
  | some ps =>
    match ps.processIter with
    | .error _ => []
    | .ok l => topProcesses l

/-- Extraction of one `^KEY="?([^"\n]+)"?` field from `/etc/os-release`
(linux.py lines 250-256): the first line starting with the key whose
value part (after an optional opening quote) has at least one character
before a quote. -/
def extractOsField (pre : String) (content : String) : Option String :=
  (splitLinesAll content).findSome? (fun line =>
    if strStarts pre line then
      let rest := line.data.drop pre.data.length
      let rest2 := if rest.head? = some '"' then rest.tail else rest
      let cap : String := ⟨rest2.takeWhile (· ≠ '"')⟩
      if cap = "" then none else some cap
    else none)

/-- The OS-release block (linux.py lines 244-259). -/
def linuxOsRelease (env : LinuxEnv) : String × String :=
  match env.osRelease with
  | none => ( "", "")
  | some c => ((extractOsField "NAME=" c).getD "", (extractOsField "VERSION=" c).getD "")

/-- The uname block (linux.py lines 261-267). -/
def linuxUname (env : LinuxEnv) : String × String :=
  match env.uname with
  | .ok u => (u.release, u.machine)
  | .error _ => ( "", "")

/-- Split at the first colon, Python `line.split(":", 1)` with a
two-element result. -/
def splitFirstColon (l : List Char) : Option (List Char × List Char) :=
  if ':' ∈ l then some (l.takeWhile (· ≠ ':'), (l.dropWhile (· ≠ ':')).drop 1) else none

/-- The line loop of the cpu-model extraction (linux.py lines 273-279):
first line whose lowercase form starts with "model name" or "cpu model"
and that contains a colon; its stripped value part. -/
def cpuModelLoop (content : String) : Option String :=
  (splitLinesAll content).findSome? (fun line =>
    let low := lowerStr line
    if strStarts "model name" low || strStarts "cpu model" low then
      match splitFirstColon line.data with
      | some (_, rest) => some (pyStrip ⟨rest⟩)
      | none => none
    else none)

/-- One attempted match of `re.search(r"model name\s*:\s*(.+)", txt)` at
the head of `l`: the literal key, optional whitespace, a colon, then the
backtracking-resolved capture (whitespace may be crossed, the capture
runs to the end of the line and must be non-empty). -/
def modelNameAt (l : List Char) : Option String :=
  if "model name".data.isPrefixOf l then
    let t := (l.drop 10).dropWhile (isPySpace ·)
    match t with
    | ':' :: r =>
      if r.any (fun c => !(isPySpace c)) then
        some (pyStrip ⟨(r.dropWhile (isPySpace ·)).takeWhile (· ≠ '\n')⟩)
      else if r.any (fun c => c ≠ '\n') then some ""
      else none
    | _ => none
  else none

/-- Leftmost match of the cpu-model regex fallback (linux.py lines 282-286). -/
def modelNameScan : List Char → Option String
  | [] => none
  | c :: cs =>
    match modelNameAt (c :: cs) with
    | some cap => some cap
    | none => modelNameScan cs

/-- The cpu-model block (linux.py lines 269-288). -/
def linuxCpuModel (env : LinuxEnv) : String :=
  match env.procCpuinfo with
  | none => ""
  | some content =>
    let m1 := (cpuModelLoop content).getD ""
    if m1 ≠ "" then m1
    else (modelNameScan content.data).getD ""

/-- The dictionary literal `Linux.gather_info` returns (linux.py lines
290-310), given the already-computed uptime value. -/
def linuxSnapshotList (env : LinuxEnv) (up : Value) : List (String × Value) :=
  let cucf := linuxCpuUsageFreq env
  let gpu := linuxGpu env
  let mem := linuxMemory env
  let osr := linuxOsRelease env
  let una := linuxUname env
  [( "hostname", .str env.node),
     ( "ip", .str (resolveIp env.sockIp env.dnsIp)),
     ( "uptime", up),
     ( "cpu_usage", numOr0 cucf.1),
     ( "cpu_frequency", intOr0 cucf.2),
     ( "gpu_usage", numOr0 gpu.usage),
     ( "gpu_frequency", numOr0 gpu.frequency),
     ( "cpu_temperature", numOr0 (linuxCpuTemperature env)),
     ( "gpu_temperature", numOr0 gpu.temperature),
     ( "memory_usage", numOr0 mem.1),
     ( "memory_max", intOr0 mem.2),
     ( "disks", .list (linuxDisks env)),
     ( "processes", .list ((linuxProcesses env).map Value.str)),
     ( "os_name", .str osr.1),
     ( "os_version", .str osr.2),
     ( "os_kernel", .str una.1),
     ( "os_architecture", .str una.2),
     ( "cpu_model", .str (linuxCpuModel env)),
     ( "gpu_model", match gpu.model with | some s => .str s | none => .null)]

/-- Embedding of `Linux.gather_info`: every block degrades to a default on
failure except `psutil.boot_time()` in the returned dictionary (linux.py
line 293), which is the one call outside any `try` and whose exception
propagates. -/
def gatherLinux (env : LinuxEnv) : Except Unit (List (String × Value)) :=
  let uptimeE : Except Unit Value :=
    match env.psutil with
    | none => .ok (.num 0)
    | some ps => ps.bootTime.map (fun t => .num ((pyInt t : ℤ) : ℚ))
  uptimeE.map (linuxSnapshotList env)

/-! ## Embedding of `Windows.gather_info` (windows.py lines 169-348) -/

/-- One entry of a Windows psutil temperature reading list: the `current`
attribute may itself be `None`. -/
structure WinTempEntry where
  current : Option ℚ

/-- One object of `GPUtil.getGPUs()`: the attributes the source reads via
`getattr(..., None)`. -/
structure GpuObjW where
  load : Option ℚ
  temperature : Option ℚ
  name : Option String
  clock : Option ℚ
  memClock : Option ℚ

/-- A WMI object with a `Name` attribute (`Win32_Processor`,
`Win32_VideoController`). -/
structure WmiNamed where
  name : Option String

/-- A `Win32_OperatingSystem` object. -/
structure WmiOs where
  caption : Option String
  version : Option String

/-- Outcomes of the individual psutil calls `Windows.gather_info` makes. -/
structure PsutilWinEnv where
  cpuPercent : Except Unit ℚ
  cpuFreq : Except Unit (Option FreqObj)
  hasSensors : Bool
  sensors : Except Unit (List (String × List WinTempEntry))
  virtualMemory : Except Unit VMemInfo
  diskUsage : String → Except Unit DiskUsageInfo
  diskPartitions : Except Unit (List PartInfo)
  processIter : Except Unit (List (Except Unit ProcData))
  bootTime : Except Unit ℚ

/-- The WMI queries the source makes on its cached client.  The
`root\OpenHardwareMonitor` probe in `_get_cpu_temperature` only prints
and never contributes to the returned value, so it is not modelled. -/
structure WmiEnv where
  processors : Except Unit (List WmiNamed)
  videoControllers : Except Unit (List WmiNamed)
  osItems : Except Unit (List WmiOs)

/-- Environment of one `Windows.gather_info` run. -/
structure WindowsEnv where
  node : String
  sockIp : Except Unit String
  dnsIp : Except Unit String
  psutil : Option PsutilWinEnv
  wmi : Option WmiEnv
  platformProcessor : String
  unameProcessor : Option String
  nvidiaSmi : Except Unit String
  gputil : Option (Except Unit (List GpuObjW))
  uname : Except Unit UnameInfo
  sysName : String
  sysVersion : String

/-- `Windows._get_cpu_model`: WMI `Win32_Processor` name when truthy, then
`platform.processor()`, then `platform.uname().processor`, else `""`. -/
def winCpuModel (env : WindowsEnv) : String :=
  let fromWmi : Option String :=
    match env.wmi with
    | some w =>
      match w.processors with
      | .ok (p :: _) =>
        match p.name with
        | some n => if n ≠ "" then some n else none
        | none => none
      | _ => none
    | none => none
  match fromWmi with
  | some n => n
  | none =>
    if env.platformProcessor ≠ "" then env.platformProcessor
    else
      match env.unameProcessor with
      | some up => if up ≠ "" then up else ""
      | none => ""

/-- `Windows._get_cpu_temperature`: the first non-`None` `current` of the
first entries of the psutil reading lists; the WMI branch only prints, so
everything else resolves to `None`. -/
def winCpuTemperature (env : WindowsEnv) : Option ℚ :=
  match env.psutil with
  | some ps =>
    if ps.hasSensors then
      match ps.sensors with
      | .ok temps =>
        temps.findSome? (fun kv =>
          match kv.2 with
          | e :: _ => e.current
          | [] => none)
      | .error _ => none
    else none
  | none => none

/-- Whether any field of a GPU info record resolved
(`any(v is not None for v in info.values())`). -/
def anyGpuField (g : GpuInfo) : Bool :=
  g.usage.isSome || g.frequency.isSome || g.temperature.isSome || g.model.isSome

/-- `Windows._get_gpu_via_gputil`: first GPU of `GPUtil.getGPUs()`; the
clock falls back through Python `or` from `clock` to `memoryClock`. -/
def winGpuGputil (env : WindowsEnv) : GpuInfo :=
  match env.gputil with
  | none => ⟨none, none, none, none⟩
  | some (.error _) => ⟨none, none, none, none⟩
  | some (.ok []) => ⟨none, none, none, none⟩
  | some (.ok (g :: _)) =>
    { usage := g.load.map (fun l => l * 100)
      temperature := g.temperature
      model := g.name
      frequency := pyOr g.clock g.memClock }

/-- `Windows._get_gpu_via_wmi`: model-only from the first video controller. -/
def winGpuWmi (env : WindowsEnv) : GpuInfo :=
  match env.wmi with
  | some w =>
    match w.videoControllers with
    | .ok (c :: _) =>
      { usage := none, frequency := none, temperature := none
        model :=
          match c.name with
          | some n => if n ≠ "" then some n else none
          | none => none }
    | _ => ⟨none, none, none, none⟩
  | none => ⟨none, none, none, none⟩

/-- The GPU cascade (windows.py lines 193-208): `nvidia-smi`, then GPUtil,
then WMI, accepting the first record with any resolved field. -/
def winGpuInfo (env : WindowsEnv) : GpuInfo :=
  let nv := match env.nvidiaSmi with
    | .ok o => parseNvidiaOut o
    | .error _ => ⟨none, none, none, none⟩
  if anyGpuField nv then nv
  else
    let gu := winGpuGputil env
    if anyGpuField gu then gu
    else
      let wi := winGpuWmi env
      if anyGpuField wi then wi
      else ⟨none, none, none, none⟩

/-- The cpu usage/frequency block (windows.py lines 176-188); like Linux
but without psutil both stay `None`. -/
def winCpuUsageFreq (env : WindowsEnv) : Option ℚ × Option ℚ :=
  match env.psutil with
  | none => (none, none)
  | some ps =>
    match ps.cpuPercent with
    | .error _ => (none, none)
    | .ok u =>
      match ps.cpuFreq with
      | .error _ => (none, none)
      | .ok none => (some u, none)
      | .ok (some f) => (some u, if f.fcur ≠ 0 then some f.fcur else none)

/-- The memory block (windows.py lines 215-225). -/
def winMemory (env : WindowsEnv) : Option ℚ × Option ℚ :=
  match env.psutil with
  | some ps =>
    match ps.virtualMemory with
    | .ok vm => (some vm.percent, some vm.total)
    | .error _ => (none, none)
  | none => (none, none)

/-- One disk dictionary of the Windows snapshot (key "path"). -/
def winDiskDict (mp : String) (usage size : ℚ) : Value :=
  .dict [( "path", .str mp), ( "usage", .num usage), ( "size", .num size)]

/-- Simplified model of `os.path.normcase(os.path.normpath(p))` on
Windows: forward slashes become backslashes and ASCII letters are
lowercased. -/
def winNorm (s : String) : String :=
  ⟨s.data.map (fun c => if c = '/' then '\\' else c.toLower)⟩

/-- The disks block (windows.py lines 227-275): the system drive `C:\`
first (`int` size), then the other partitions (empty and UNC mount
points skipped, deduplicated by normalized path, marked seen only after
a successful usage query); if the `C:\` query raises, the whole block
falls back to a root-only entry. -/
def winDisks (env : WindowsEnv) : List Value :=
  match env.psutil with
  | none => []
  | some ps =>
    match ps.diskUsage "C:\\" with
    | .error _ =>
      match ps.diskUsage "/" with
      | .ok du => [winDiskDict "/" du.percent du.total]
      | .error _ => []
    | .ok du =>
      let d0 : List Value := [winDiskDict "C:\\" du.percent ((pyInt du.total : ℤ) : ℚ)]
      let parts := match ps.diskPartitions with
        | .ok l => l
        | .error _ => []
      (parts.foldl (fun (acc : List Value × List String) p =>
        let mp := p.mountpoint
        if mp = "" then acc
        else
          let norm := winNorm mp
          if norm ∈ acc.2 then acc
          else if strStarts "\\\\" norm then acc
          else
            match ps.diskUsage mp with
            | .error _ => acc
            | .ok du2 => (acc.1 ++ [winDiskDict mp du2.percent du2.total], norm :: acc.2))
        (d0, [winNorm "C:\\"])).1

/-- The processes block (windows.py lines 277-294), identical to Linux. -/
def winProcesses (env : WindowsEnv) : List String :=
  match env.psutil with
  | none => []
  | some ps =>
    match ps.processIter with
    | .error _ => []
    | .ok l => topProcesses l

/-- The OS block (windows.py lines 296-322): WMI caption/version when
available, then uname release/machine with platform fallbacks for the
name/version only when the uname call succeeds. -/
def winOsInfo (env : WindowsEnv) : String × String × String × String :=
  let wmiName : String × String :=
    match env.wmi with
    | some w =>
      match w.osItems with
      | .ok (o :: _) => (o.caption.getD "", o.version.getD "")
      | _ => ( "", "")
    | none => ( "", "")
  match env.uname with
  | .error _ => (wmiName.1, wmiName.2, "", "")
  | .ok u =>
    let osName := if wmiName.1 = "" then env.sysName else wmiName.1
    let osVer := if wmiName.2 = "" then env.sysVersion else wmiName.2
    (osName, osVer, u.release, u.machine)

/-- The dictionary literal `Windows.gather_info` returns (windows.py lines
327-348), given the already-computed uptime value. -/
def winSnapshotList (env : WindowsEnv) (up : Value) : List (String × Value) :=
  let cucf := winCpuUsageFreq env
  let gpu := winGpuInfo env
  let mem := winMemory env
  let osi := winOsInfo env
  [( "hostname", .str env.node),
     ( "ip", .str (resolveIp env.sockIp env.dnsIp)),
     ( "uptime", up),
     ( "cpu_usage", numOrNull cucf.1),
     ( "cpu_frequency", numOrNull cucf.2),
     ( "gpu_usage", numOrNull gpu.usage),
     ( "gpu_frequency", numOrNull gpu.frequency),
     ( "cpu_temperature", numOrNull (winCpuTemperature env)),
     ( "gpu_temperature", numOrNull gpu.temperature),
     ( "memory_usage", numOrNull mem.1),
     ( "memory_max", intOrNull mem.2),
     ( "disks", .list (winDisks env)),
     ( "processes", .list ((winProcesses env).map Value.str)),
     ( "os_name", .str osi.1),
     ( "os_version", .str osi.2.1),
     ( "os_kernel", .str osi.2.2.1),
     ( "os_architecture", .str osi.2.2.2),
     ( "cpu_model", .str (winCpuModel env)),
     ( "gpu_model", match gpu.model with | some s => .str s | none => .null)]

/-- Embedding of `Windows.gather_info`: as on Linux, the only uncaught
exception path is `psutil.boot_time()` in the returned dictionary
(windows.py line 330). -/
def gatherWindows (env : WindowsEnv) : Except Unit (List (String × Value)) :=
  let uptimeE : Except Unit Value :=
    match env.psutil with
    | none => .ok .null
    | some ps => ps.bootTime.map (fun t => .num ((pyInt t : ℤ) : ℚ))
  uptimeE.map (winSnapshotList env)

/-- The snapshot keys both platforms declare, in dictionary order. -/
def snapshotKeys : List String :=
  [ "hostname", "ip", "uptime", "cpu_usage", "cpu_frequency", "gpu_usage",
    "gpu_frequency", "cpu_temperature", "gpu_temperature", "memory_usage",
    "memory_max", "disks", "processes", "os_name", "os_version",
    "os_kernel", "os_architecture", "cpu_model", "gpu_model" ]

/-- The Linux hypothesis space of claim C1: either the metrics library is
absent, or its `boot_time()` call (the one call outside any `try`)
returns. -/
def linuxBootOk (env : LinuxEnv) : Prop :=
  ∀ ps, env.psutil = some ps → ∃ t, ps.bootTime = .ok t

/-- The Windows hypothesis space of claim C1. -/
def winBootOk (env : WindowsEnv) : Prop :=
  ∀ ps, env.psutil = some ps → ∃ t, ps.bootTime = .ok t

/-! ## General lemmas about the embedded operations -/

theorem decimalVal_eval (ip fp : List Char) :
    decimalVal ip fp = (digitsToNat ip : ℚ) + (digitsToNat fp : ℚ) / ((10:ℚ) ^ fp.length) := rfl

theorem digitsToNat_nil : digitsToNat [] = 0 := rfl

theorem pyOr_none (b : Option ℚ) : pyOr none b = b := rfl

theorem pyOr_zero (b : Option ℚ) : pyOr (some 0) b = b := by simp [pyOr]

theorem pyOr_ne_zero {q : ℚ} (h : q ≠ 0) (b : Option ℚ) : pyOr (some q) b = some q := by
  simp [pyOr, h]

theorem foldl_min_le : ∀ (xs : List ℚ) (x : ℚ), ∀ y ∈ x :: xs, xs.foldl min x ≤ y := by
  intro xs
  induction xs with
  | nil =>
    intro x y hy
    rw [List.mem_singleton] at hy
    simp [hy]
  | cons a l ih =>
    intro x y hy
    rw [List.mem_cons, List.mem_cons] at hy
    show l.foldl min (min x a) ≤ y
    rcases hy with h | h | h
    · rw [h]
      exact le_trans (ih (min x a) (min x a) (List.mem_cons_self _ _)) (min_le_left _ _)
    · rw [h]
      exact le_trans (ih (min x a) (min x a) (List.mem_cons_self _ _)) (min_le_right _ _)
    · exact ih (min x a) y (List.mem_cons_of_mem _ h)

theorem foldl_min_mem : ∀ (xs : List ℚ) (x : ℚ), xs.foldl min x ∈ x :: xs := by
  intro xs
  induction xs with
  | nil => intro x; exact List.mem_singleton_self x
  | cons a l ih =>
    intro x
    show l.foldl min (min x a) ∈ x :: a :: l
    have h := ih (min x a)
    rw [List.mem_cons] at h
    rcases h with h | h
    · rcases min_choice x a with hc | hc
      · rw [h, hc]; exact List.mem_cons_self _ _
      · rw [h, hc]; exact List.mem_cons_of_mem _ (List.mem_cons_self _ _)
    · exact List.mem_cons_of_mem _ (List.mem_cons_of_mem _ h)

theorem foldl_max_le : ∀ (xs : List ℚ) (x : ℚ), ∀ y ∈ x :: xs, y ≤ xs.foldl max x := by
  intro xs
  induction xs with
  | nil =>
    intro x y hy
    rw [List.mem_singleton] at hy
    simp [hy]
  | cons a l ih =>
    intro x y hy
    rw [List.mem_cons, List.mem_cons] at hy
    show y ≤ l.foldl max (max x a)
    rcases hy with h | h | h
    · rw [h]
      exact le_trans (le_max_left _ _) (ih (max x a) (max x a) (List.mem_cons_self _ _))
    · rw [h]
      exact le_trans (le_max_right _ _) (ih (max x a) (max x a) (List.mem_cons_self _ _))
    · exact ih (max x a) y (List.mem_cons_of_mem _ h)

theorem foldl_max_mem : ∀ (xs : List ℚ) (x : ℚ), xs.foldl max x ∈ x :: xs := by
  intro xs
  induction xs with
  | nil => intro x; exact List.mem_singleton_self x
  | cons a l ih =>
    intro x
    show l.foldl max (max x a) ∈ x :: a :: l
    have h := ih (max x a)
    rw [List.mem_cons] at h
    rcases h with h | h
    · rcases max_choice x a with hc | hc
      · rw [h, hc]; exact List.mem_cons_self _ _
      · rw [h, hc]; exact List.mem_cons_of_mem _ (List.mem_cons_self _ _)
    · exact List.mem_cons_of_mem _ (List.mem_cons_of_mem _ h)

theorem listMin_le {l : List ℚ} {q : ℚ} (hq : q ∈ l) : ∃ m, listMin l = some m ∧ m ≤ q := by
  cases l with
  | nil => cases hq
  | cons x xs => exact ⟨_, rfl, foldl_min_le xs x q hq⟩

theorem listMin_mem {l : List ℚ} {m : ℚ} (h : listMin l = some m) : m ∈ l := by
  cases l with
  | nil => cases h
  | cons x xs =>
    have : xs.foldl min x = m := by injection h
    rw [← this]; exact foldl_min_mem xs x

theorem listMax_le {l : List ℚ} {q : ℚ} (hq : q ∈ l) : ∃ m, listMax l = some m ∧ q ≤ m := by
  cases l with
  | nil => cases hq
  | cons x xs => exact ⟨_, rfl, foldl_max_le xs x q hq⟩

theorem listMax_mem {l : List ℚ} {m : ℚ} (h : listMax l = some m) : m ∈ l := by
  cases l with
  | nil => cases h
  | cons x xs =>
    have : xs.foldl max x = m := by injection h
    rw [← this]; exact foldl_max_mem xs x

theorem regexNumCore_of_no_digit (l : List Char) (h : ∀ c ∈ l, c.isDigit = false) :
    regexNumCore l = none := by
  have hd : l.takeWhile (fun c => c.isDigit) = [] := by
    cases l with
    | nil => rfl
    | cons c cs => simp [List.takeWhile_cons, h c (by simp)]
  have hdr : l.dropWhile (fun c => c.isDigit) = l := by
    cases l with
    | nil => rfl
    | cons c cs => simp [List.dropWhile_cons, h c (by simp)]
  show (if (l.dropWhile (·.isDigit)).head? = some '.' then _ else _) = none
  rw [hdr, hd]
  by_cases hdot : l.head? = some '.'
  · rw [if_pos hdot]
    have ht : l.tail.takeWhile (fun c => c.isDigit) = [] := by
      cases l with
      | nil => rfl
      | cons c cs =>
        cases cs with
        | nil => rfl
        | cons d ds => simp [List.takeWhile_cons, h d (by simp)]
    simp [ht]
  · rw [if_neg hdot]
    simp

theorem regexNumAt_of_no_digit (l : List Char) (h : ∀ c ∈ l, c.isDigit = false) :
    regexNumAt l = none := by
  have htail : ∀ c ∈ l.tail, c.isDigit = false := fun c hc =>
    h c (List.mem_of_mem_tail hc)
  rw [regexNumAt]
  by_cases h1 : l.head? = some '-'
  · rw [if_pos h1, regexNumCore_of_no_digit _ htail]; rfl
  · rw [if_neg h1]
    by_cases h2 : l.head? = some '+'
    · rw [if_pos h2]; exact regexNumCore_of_no_digit _ htail
    · rw [if_neg h2]; exact regexNumCore_of_no_digit _ h

theorem firstNum_of_no_digit : ∀ l : List Char, (∀ c ∈ l, c.isDigit = false) →
    firstNum l = none := by
  intro l
  induction l with
  | nil => intro _; rfl
  | cons c cs ih =>
    intro h
    rw [firstNum, regexNumAt_of_no_digit _ h]
    exact ih (fun x hx => h x (by simp [hx]))

theorem sortedSet_nodup (l : List String) : (sortedSet l).Nodup :=
  (List.perm_insertionSort strLe l.dedup).symm.nodup (List.nodup_dedup l)

theorem sortedSet_mem (l : List String) (s : String) : s ∈ sortedSet l ↔ s ∈ l := by
  rw [sortedSet]
  rw [(List.perm_insertionSort strLe l.dedup).mem_iff]
  exact List.mem_dedup

theorem sortedSet_sorted (l : List String) : List.Sorted strLe (sortedSet l) :=
  List.sorted_insertionSort strLe l.dedup

theorem sortedSet_perm_eq {l l' : List String} (h : List.Perm l l') :
    sortedSet l = sortedSet l' := by
  have p1 : List.Perm (sortedSet l) l.dedup := List.perm_insertionSort strLe l.dedup
  have p2 : List.Perm (sortedSet l') l'.dedup := List.perm_insertionSort strLe l'.dedup
  exact List.eq_of_perm_of_sorted (p1.trans (h.dedup.trans p2.symm))
    (sortedSet_sorted l) (sortedSet_sorted l')

theorem psutilFreqCurrent_ne_zero {env : CpuPyEnv} {v : ℚ}
    (h : psutilFreqCurrent env = some v) : v ≠ 0 := by
  rw [psutilFreqCurrent] at h
  by_cases hp : env.psutilPresent
  · rw [if_neg (by simp [hp])] at h
    rcases hc : env.cpuFreqCall with e | fo
    · rw [hc] at h; cases h
    · rw [hc] at h
      cases fo with
      | none => cases h
      | some f =>
        by_cases hz : f.fcur ≠ 0
        · simp only [if_pos hz] at h
          injection h with h; rw [← h]; exact hz
        · simp only [if_neg hz] at h; cases h
  · rw [if_pos (by simp [hp])] at h; cases h

theorem stripChars_eq_rdropWhile (p : Char → Bool) (s : String) :
    stripChars p s = ⟨List.rdropWhile p (s.data.dropWhile p)⟩ := rfl

theorem stripChars_idem (p : Char → Bool) (s : String) :
    stripChars p (stripChars p s) = stripChars p s := by
  rw [stripChars_eq_rdropWhile]
  congr 1
  show List.rdropWhile p ((List.rdropWhile p (s.data.dropWhile p)).dropWhile p)
      = List.rdropWhile p (s.data.dropWhile p)
  have hdw : (List.rdropWhile p (s.data.dropWhile p)).dropWhile p
      = List.rdropWhile p (s.data.dropWhile p) := by
    rcases hX : List.rdropWhile p (s.data.dropWhile p) with _ | ⟨x, xs⟩
    · rfl
    · have hpre := List.rdropWhile_prefix p (s.data.dropWhile p)
      rw [hX] at hpre
      rcases hpre with ⟨t, ht⟩
      have hhead : (s.data.dropWhile p).head? = some x := by
        rw [← ht]; rfl
      have hnp : p x = false := by
        have h2 := List.head?_dropWhile_not p s.data
        rw [hhead] at h2
        exact h2
      simp [List.dropWhile_cons, hnp]
  rw [hdw]
  exact List.rdropWhile_idempotent p (s.data.dropWhile p)

theorem pyStrip_idem (s : String) : pyStrip (pyStrip s) = pyStrip s :=
  stripChars_idem isPySpace s

/-! ## Claim theorems -/

/-- A policy unit whose `scaling_min_freq` file reads "2500" (kHz). -/
def unitMin2500 : PolicyUnit :=
  { governorFile := none, minFile := some "2500", maxFile := none,
    scalingCurFile := none, cpuinfoCurFile := none }

/-- C5: Frequency normalization divides kilohertz readings by 1000 to
obtain megahertz (a `scaling_min_freq` of "2500" kHz resolves to 2.5
MHz), `_safe_float` extracts the first decimal number of a string with
trailing units ("2.30 GHz" yields 2.30), and on a string containing no
digit it yields the unknown marker `none` instead of raising. -/
theorem c5_frequency_normalization :
    (sysfsAgg [unitMin2500]).minMhz = some (5/2) ∧
    safeFloat "2.30 GHz" = some (23/10) ∧
    (∀ s : String, (∀ c ∈ s.data, c.isDigit = false) → safeFloat s = none) := by
  refine ⟨?_, ?_, ?_⟩
  · rw [show (sysfsAgg [unitMin2500]).minMhz
        = some (decimalVal ['2', '5', '0', '0'] [] / 1000) from rfl, decimalVal_eval]
    norm_num [show digitsToNat ['2', '5', '0', '0'] = 2500 from by decide, digitsToNat_nil]
  · rw [show safeFloat "2.30 GHz" = some (decimalVal ['2'] ['3', '0']) from rfl, decimalVal_eval]
    norm_num [show digitsToNat ['2'] = 2 from by decide,
      show digitsToNat ['3', '0'] = 30 from by decide]
  · intro s h
    exact firstNum_of_no_digit s.data h

/-- Witness for C5: the digit-free hypothesis discharged at a concrete string. -/
theorem c5_witness : safeFloat "GHz, no reading" = none :=
  c5_frequency_normalization.2.2 "GHz, no reading" (by decide)

/-- Environment for the C6 thermal-zone example: no psutil, one thermal
zone whose `temp` file reads "45000". -/
def linuxEnvThermal : LinuxEnv :=
  { node := "host", sockIp := .error (), dnsIp := .error (), psutil := none,
    thermalDir := some [( "thermal_zone0", .ok "45000")],
    nvidiaSmi := .error (), lspci := .error (), procMounts := none,
    statvfs := fun _ => .error (), osRelease := none, uname := .error (),
    procCpuinfo := none }

/-- C6: Temperature normalization maps every raw thermal-zone value
strictly greater than 1000 to the value divided by 1000 and leaves
values of at most 1000 unchanged; concretely 45000 normalizes to 45 and
45 to 45, and a snapshot gathered from a zone reading "45000" reports
cpu_temperature 45. -/
theorem c6_temperature_normalization :
    (∀ v : ℚ, (1000 < v → thermalNorm v = v / 1000) ∧ (v ≤ 1000 → thermalNorm v = v)) ∧
    thermalNorm 45000 = 45 ∧ thermalNorm 45 = 45 ∧
    (∃ s, gatherLinux linuxEnvThermal = .ok s ∧
      s.lookup "cpu_temperature" = some (Value.num 45)) := by
  refine ⟨?_, ?_, ?_, ?_⟩
  · intro v
    constructor
    · intro h; rw [thermalNorm, if_pos h]
    · intro h; rw [thermalNorm, if_neg (not_lt.mpr h)]
  · rw [thermalNorm, if_pos (by norm_num)]; norm_num
  · rw [thermalNorm, if_neg (by norm_num)]
  · have ht : linuxCpuTemperature linuxEnvThermal
        = some (thermalNorm (decimalVal ['4', '5', '0', '0', '0'] [])) := rfl
    have hv : decimalVal ['4', '5', '0', '0', '0'] [] = 45000 := by
      rw [decimalVal_eval]
      norm_num [show digitsToNat ['4', '5', '0', '0', '0'] = 45000 from by decide, digitsToNat_nil]
    have ht2 : linuxCpuTemperature linuxEnvThermal = some 45 := by
      rw [ht, hv, thermalNorm, if_pos (by norm_num)]
      norm_num
    refine ⟨linuxSnapshotList linuxEnvThermal (.num 0), rfl, ?_⟩
    rw [show (linuxSnapshotList linuxEnvThermal (.num 0)).lookup "cpu_temperature"
        = some (numOr0 (linuxCpuTemperature linuxEnvThermal)) from rfl, ht2]
    rfl

/-- Witness for C6: the universally quantified normalization applied at 2000. -/
theorem c6_witness : thermalNorm 2000 = 2 := by
  rw [(c6_temperature_normalization.1 2000).1 (by norm_num)]
  norm_num

/-- C7: `_detect_hypervisor` reports a virtual machine whenever the
hypervisor-vendor or virtualization-type field resolved from lscpu is
non-empty; when both are empty it invokes `systemd-detect-virt --vm`,
and a zero exit status with non-empty output differing case-insensitively
from "none" yields `is_virtual_machine = true` with that output as the
vendor; in every other case `is_virtual_machine` is false.  Concretely,
empty lscpu fields with the command returning "kvm" yield the flag set
and vendor "kvm". -/
theorem c7_hypervisor_detection :
    (∀ (lscpu : String → Option String) (cmd : Nat × String),
      ((truthyS (hvVendorField lscpu) = true ∨ truthyS (virtTypeField lscpu) = true) →
        (detectHypervisor lscpu cmd).isVm = true) ∧
      (truthyS (hvVendorField lscpu) = false → truthyS (virtTypeField lscpu) = false →
        (((cmd.1 = 0 ∧ pyStrip cmd.2 ≠ "" ∧ lowerStr (pyStrip cmd.2) ≠ "none") →
            (detectHypervisor lscpu cmd).isVm = true ∧
            (detectHypervisor lscpu cmd).vendor = some (pyStrip cmd.2)) ∧
         (¬(cmd.1 = 0 ∧ pyStrip cmd.2 ≠ "" ∧ lowerStr (pyStrip cmd.2) ≠ "none") →
            (detectHypervisor lscpu cmd).isVm = false)))) ∧
    (detectHypervisor (fun _ => none) (0, "kvm")).isVm = true ∧
    (detectHypervisor (fun _ => none) (0, "kvm")).vendor = some "kvm" := by
  refine ⟨?_, rfl, rfl⟩
  intro lscpu cmd
  constructor
  · intro h
    have hb : (truthyS (hvVendorField lscpu) || truthyS (virtTypeField lscpu)) = true := by
      rcases h with h | h <;> simp [h]
    simp [detectHypervisor, hb]
  · intro h1 h2
    have hb : (truthyS (hvVendorField lscpu) || truthyS (virtTypeField lscpu)) = false := by
      simp [h1, h2]
    constructor
    · intro hc
      constructor
      · simp [detectHypervisor, hb, hc]
      · simp [detectHypervisor, hb, hc, pyStrip_idem]
    · intro hc
      simp [detectHypervisor, hb, hc]

/-- Witness for C7: the fallback case applied at empty lscpu fields and a
successful "kvm" detection. -/
theorem c7_witness :
    (detectHypervisor (fun k => if k = "Virtualization type" then some "" else none)
       (0, " kvm ")).isVm = true ∧
    (detectHypervisor (fun k => if k = "Virtualization type" then some "" else none)
       (0, " kvm ")).vendor = some "kvm" := by
  have h := ((c7_hypervisor_detection.1
      (fun k => if k = "Virtualization type" then some "" else none) (0, " kvm ")).2
      (by decide) (by decide)).1 (by refine ⟨rfl, ?_, ?_⟩ <;> decide)
  exact ⟨h.1, by rw [h.2]; decide⟩

/-- The three-governor example of C9. -/
def govExampleUnits : List PolicyUnit :=
  [ { governorFile := some "performance", minFile := none, maxFile := none,
      scalingCurFile := none, cpuinfoCurFile := none },
    { governorFile := some "powersave", minFile := none, maxFile := none,
      scalingCurFile := none, cpuinfoCurFile := none },
    { governorFile := some "performance", minFile := none, maxFile := none,
      scalingCurFile := none, cpuinfoCurFile := none } ]

/-- C9: Governor aggregation is deduplicating and order-independent: the
resolved collection has no duplicates, contains exactly the names the
units reported (a non-empty stripped `scaling_governor` reading), and
depends only on the multiset of reported names; units reporting
{performance, powersave, performance} resolve to exactly
[performance, powersave]. -/
theorem c9_governor_aggregation :
    (∀ units : List PolicyUnit, ((sysfsAgg units).governors).Nodup) ∧
    (∀ units : List PolicyUnit, ∀ s,
      s ∈ (sysfsAgg units).governors ↔ s ∈ units.filterMap policyGov) ∧
    (∀ us vs : List PolicyUnit,
      List.Perm (us.filterMap policyGov) (vs.filterMap policyGov) →
      (sysfsAgg us).governors = (sysfsAgg vs).governors) ∧
    (sysfsAgg govExampleUnits).governors = [ "performance", "powersave" ] := by
  refine ⟨?_, ?_, ?_, ?_⟩
  · intro units
    exact sortedSet_nodup (units.filterMap policyGov)
  · intro units s
    exact sortedSet_mem (units.filterMap policyGov) s
  · intro us vs h
    exact sortedSet_perm_eq h
  · decide

/-- Witness for C9: order-independence applied to two concrete unit lists
whose reported governor multisets are permutations. -/
theorem c9_witness :
    (sysfsAgg [ { governorFile := some "powersave", minFile := none, maxFile := none,
                  scalingCurFile := none, cpuinfoCurFile := none },
                { governorFile := some "performance", minFile := none, maxFile := none,
                  scalingCurFile := none, cpuinfoCurFile := none } ]).governors
      = (sysfsAgg [ { governorFile := some "performance", minFile := none, maxFile := none,
                      scalingCurFile := none, cpuinfoCurFile := none },
                    { governorFile := some "powersave", minFile := none, maxFile := none,
                      scalingCurFile := none, cpuinfoCurFile := none } ]).governors :=
  c9_governor_aggregation.2.2.1 _ _ (by decide)

/-- The C3 counterexample environment: psutil absent, one sysfs policy
whose current-frequency file reads "0" kHz, and lscpu reporting
`CPU MHz: 1500.000`. -/
def cpuEnvC3 : CpuPyEnv :=
  { psutilPresent := false, cpuFreqCall := .error (),
    sysfsUnits := [ { governorFile := none, minFile := none, maxFile := none,
                      scalingCurFile := some "0", cpuinfoCurFile := none } ],
    lscpu := fun k => if k = "CPU MHz" then some "1500.000" else none,
    detectVirtCmd := (1, "") }

/-- Counterexample to C3 as stated: the sysfs tree reports a current
frequency (the value 0), yet the resolver falls through to the lscpu
reading 1500 — the kernel-topology source is consulted although the
higher-priority policy-tree source was not absent. -/
theorem c3_counterexample :
    psutilFreqCurrent cpuEnvC3 = none ∧
    sysfsCurrentMhz cpuEnvC3 = some 0 ∧
    resolvedCurrentMhz cpuEnvC3 = some 1500 ∧ (1500 : ℚ) ≠ 0 := by
  have h1 : psutilFreqCurrent cpuEnvC3 = none := rfl
  have h2 : sysfsCurrentMhz cpuEnvC3
      = some ((decimalVal ['0'] [] / 1000 + 0) / ((1 : ℕ) : ℚ)) := rfl
  have hz : decimalVal ['0'] [] = 0 := by
    rw [decimalVal_eval]
    norm_num [show digitsToNat ['0'] = 0 from by decide, digitsToNat_nil]
  have h2' : sysfsCurrentMhz cpuEnvC3 = some 0 := by
    rw [h2, hz]; norm_num
  have h3 : (cpuEnvC3.lscpu "CPU MHz").bind safeFloat
      = some (decimalVal ['1', '5', '0', '0'] ['0', '0', '0']) := rfl
  have h3' : (cpuEnvC3.lscpu "CPU MHz").bind safeFloat = some 1500 := by
    rw [h3, decimalVal_eval]
    norm_num [show digitsToNat ['1', '5', '0', '0'] = 1500 from by decide,
      show digitsToNat ['0', '0', '0'] = 0 from by decide]
  refine ⟨h1, h2', ?_, by norm_num⟩
  rw [show resolvedCurrentMhz cpuEnvC3
      = pyOr (psutilFreqCurrent cpuEnvC3)
          (pyOr (sysfsCurrentMhz cpuEnvC3) ((cpuEnvC3.lscpu "CPU MHz").bind safeFloat)) from rfl,
    h1, h2', h3', pyOr_none, pyOr_zero]

/-- C3 as amended: when the psutil adapter reports a current frequency the
resolver returns it (such a report is never zero by construction of
`_psutil_cpu_freq`); when psutil reports nothing, a non-zero sysfs mean
wins, and the lscpu `CPU MHz` field is consulted exactly when the sysfs
reading is absent **or zero** (Python `or` conflates the two). -/
theorem c3_resolver_priority :
    ∀ env : CpuPyEnv,
      (∀ v, psutilFreqCurrent env = some v → resolvedCurrentMhz env = some v) ∧
      (psutilFreqCurrent env = none →
        (∀ w, sysfsCurrentMhz env = some w → w ≠ 0 → resolvedCurrentMhz env = some w) ∧
        ((sysfsCurrentMhz env = none ∨ sysfsCurrentMhz env = some 0) →
          resolvedCurrentMhz env = (env.lscpu "CPU MHz").bind safeFloat)) := by
  intro env
  have hdef : resolvedCurrentMhz env
      = pyOr (psutilFreqCurrent env)
          (pyOr (sysfsCurrentMhz env) ((env.lscpu "CPU MHz").bind safeFloat)) := rfl
  constructor
  · intro v hv
    rw [hdef, hv, pyOr_ne_zero (psutilFreqCurrent_ne_zero hv)]
  · intro hnone
    constructor
    · intro w hw hwz
      rw [hdef, hnone, pyOr_none, hw, pyOr_ne_zero hwz]
    · intro hcase
      rcases hcase with h | h
      · rw [hdef, hnone, pyOr_none, h, pyOr_none]
      · rw [hdef, hnone, pyOr_none, h, pyOr_zero]

/-- Environment for the C3 witness: psutil reports 2400 MHz. -/
def cpuEnvPsutil : CpuPyEnv :=
  { psutilPresent := true, cpuFreqCall := .ok (some ⟨2400, 400, 4700⟩),
    sysfsUnits := [], lscpu := fun _ => none, detectVirtCmd := (1, "") }

/-- Witness for C3: the amended priority applied at an environment where
psutil reports 2400 MHz. -/
theorem c3_witness : resolvedCurrentMhz cpuEnvPsutil = some 2400 :=
  (c3_resolver_priority cpuEnvPsutil).1 2400 (by norm_num [psutilFreqCurrent, cpuEnvPsutil])

/-- A policy unit exposing both `scaling_cur_freq` (1000000 kHz) and
`cpuinfo_cur_freq` (2000000 kHz), hence contributing two readings. -/
def unitBothCur : PolicyUnit :=
  { governorFile := none, minFile := none, maxFile := none,
    scalingCurFile := some "1000000", cpuinfoCurFile := some "2000000" }

/-- Counterexample to C4 as stated: one unit exposing both current-frequency
files contributes twice to the mean; the aggregate 1500 MHz equals neither
of the unit's readings (1000 and 2000 MHz), so a unit does not contribute
exactly once. -/
theorem c4_counterexample :
    policyCurrents unitBothCur = [1000, 2000] ∧
    (sysfsAgg [unitBothCur]).currentMhz = some 1500 ∧
    (1500 : ℚ) ≠ 1000 ∧ (1500 : ℚ) ≠ 2000 := by
  have e1 : decimalVal ['1', '0', '0', '0', '0', '0', '0'] [] / 1000 = (1000 : ℚ) := by
    rw [decimalVal_eval]
    norm_num [show digitsToNat ['1', '0', '0', '0', '0', '0', '0'] = 1000000 from by decide,
      digitsToNat_nil]
  have e2 : decimalVal ['2', '0', '0', '0', '0', '0', '0'] [] / 1000 = (2000 : ℚ) := by
    rw [decimalVal_eval]
    norm_num [show digitsToNat ['2', '0', '0', '0', '0', '0', '0'] = 2000000 from by decide,
      digitsToNat_nil]
  refine ⟨?_, ?_, by norm_num, by norm_num⟩
  · rw [show policyCurrents unitBothCur
        = [decimalVal ['1', '0', '0', '0', '0', '0', '0'] [] / 1000,
           decimalVal ['2', '0', '0', '0', '0', '0', '0'] [] / 1000] from rfl, e1, e2]
  · rw [show (sysfsAgg [unitBothCur]).currentMhz
        = some ((decimalVal ['1', '0', '0', '0', '0', '0', '0'] [] / 1000 +
                 (decimalVal ['2', '0', '0', '0', '0', '0', '0'] [] / 1000 + 0)) / ((2 : ℕ) : ℚ))
        from rfl, e1, e2]
    norm_num

/-- C4 as amended: the aggregate minimum is the least reported per-unit
minimum and is attained by some unit (dually for the maximum); the
aggregate current is the arithmetic mean over **all readable
current-frequency readings** — each unit contributes one value per
readable file among `scaling_cur_freq` and `cpuinfo_cur_freq`, so a unit
exposing both contributes twice — and is absent exactly when no reading
exists; units reporting nothing for a component are excluded from it. -/
theorem c4_sysfs_aggregation :
    ∀ units : List PolicyUnit,
      (∀ u ∈ units, ∀ q, policyMin u = some q →
        ∃ m, (sysfsAgg units).minMhz = some m ∧ m ≤ q) ∧
      (∀ m, (sysfsAgg units).minMhz = some m → ∃ u ∈ units, policyMin u = some m) ∧
      (∀ u ∈ units, ∀ q, policyMax u = some q →
        ∃ m, (sysfsAgg units).maxMhz = some m ∧ q ≤ m) ∧
      (∀ m, (sysfsAgg units).maxMhz = some m → ∃ u ∈ units, policyMax u = some m) ∧
      (units.flatMap policyCurrents ≠ [] →
        ∃ c, (sysfsAgg units).currentMhz = some c ∧
          c * ((units.flatMap policyCurrents).length : ℚ)
            = (units.flatMap policyCurrents).sum) ∧
      (units.flatMap policyCurrents = [] → (sysfsAgg units).currentMhz = none) := by
  intro units
  have hmin : (sysfsAgg units).minMhz = listMin (units.filterMap policyMin) := rfl
  have hmax : (sysfsAgg units).maxMhz = listMax (units.filterMap policyMax) := rfl
  have hcur : (sysfsAgg units).currentMhz
      = if (units.flatMap policyCurrents).isEmpty then none
        else some ((units.flatMap policyCurrents).sum /
          ((units.flatMap policyCurrents).length : ℚ)) := rfl
  refine ⟨?_, ?_, ?_, ?_, ?_, ?_⟩
  · intro u hu q hq
    rw [hmin]
    exact listMin_le (List.mem_filterMap.mpr ⟨u, hu, hq⟩)
  · intro m hm
    rw [hmin] at hm
    exact List.mem_filterMap.mp (listMin_mem hm)
  · intro u hu q hq
    rw [hmax]
    exact listMax_le (List.mem_filterMap.mpr ⟨u, hu, hq⟩)
  · intro m hm
    rw [hmax] at hm
    exact List.mem_filterMap.mp (listMax_mem hm)
  · intro hne
    have hlen : ((units.flatMap policyCurrents).length : ℚ) ≠ 0 := by
      exact_mod_cast fun h => hne (List.length_eq_zero.mp h)
    rw [hcur, if_neg (by simpa [List.isEmpty_iff] using hne)]
    exact ⟨_, rfl, div_mul_cancel₀ _ hlen⟩
  · intro hempty
    rw [hcur, if_pos (List.isEmpty_iff.mpr hempty)]

/-- Witness for C4: the least-reported-minimum property applied at the
concrete "2500 kHz" unit. -/
theorem c4_witness : ∃ m, (sysfsAgg [unitMin2500]).minMhz = some m ∧ m ≤ 5/2 := by
  refine (c4_sysfs_aggregation [unitMin2500]).1 unitMin2500 (List.mem_singleton_self _) (5/2) ?_
  rw [show policyMin unitMin2500 = some (decimalVal ['2', '5', '0', '0'] [] / 1000) from rfl,
    decimalVal_eval]
  norm_num [show digitsToNat ['2', '5', '0', '0'] = 2500 from by decide, digitsToNat_nil]

/-- The C8 example: processes with resident sizes 50MB, 200MB, 10MB. -/
def procListExample : List (Except Unit ProcData) :=
  [ .ok ⟨some "a", 1, some 52428800⟩,
    .ok ⟨some "b", 2, some 209715200⟩,
    .ok ⟨some "c", 3, some 10485760⟩ ]

/-- C8: the resolved process summary has at most 10 entries, the
underlying sort is descending by resident size, the first entry belongs
to a process of maximal resident size, and every entry is the display
string (name plus pid) of some enumerated process; for sizes
[50MB, 200MB, 10MB] the summary starts with the 200MB process. -/
theorem c8_process_ranking :
    (∀ l : List (Except Unit ProcData),
      (topProcesses l).length ≤ 10 ∧
      List.Sorted memGe (List.insertionSort memGe (procPairs l)) ∧
      (∀ s, (topProcesses l).head? = some s →
        ∃ p ∈ procPairs l, p.2 = s ∧ ∀ q ∈ procPairs l, q.1 ≤ p.1) ∧
      (∀ s ∈ topProcesses l, ∃ d, Except.ok d ∈ l ∧ s = displayProc d)) ∧
    topProcesses procListExample = [ "b (2)", "a (1)", "c (3)" ] := by
  constructor
  · intro l
    refine ⟨?_, List.sorted_insertionSort memGe (procPairs l), ?_, ?_⟩
    · rw [topProcesses, List.length_map, List.length_take]
      exact min_le_left _ _
    · intro s hs
      rw [topProcesses, List.head?_map] at hs
      rcases hsort : List.insertionSort memGe (procPairs l) with _ | ⟨p, rest⟩
      · rw [hsort] at hs; cases hs
      · rw [hsort] at hs
        rw [show ((p :: rest).take 10).head? = some p from rfl] at hs
        injection hs with hs
        have hperm := List.perm_insertionSort memGe (procPairs l)
        rw [hsort] at hperm
        refine ⟨p, hperm.mem_iff.mp (List.mem_cons_self _ _), hs, ?_⟩
        intro q hq
        have hq' : q ∈ p :: rest := hperm.mem_iff.mpr hq
        have hsorted := List.sorted_insertionSort memGe (procPairs l)
        rw [hsort] at hsorted
        rcases List.mem_cons.mp hq' with h | h
        · rw [h]
        · exact (List.pairwise_cons.mp hsorted).1 q h
    · intro s hs
      rw [topProcesses] at hs
      rcases List.mem_map.mp hs with ⟨p, hp, hps⟩
      have hp2 : p ∈ List.insertionSort memGe (procPairs l) := List.take_subset _ _ hp
      have hp3 : p ∈ procPairs l :=
        (List.perm_insertionSort memGe (procPairs l)).mem_iff.mp hp2
      rcases List.mem_filterMap.mp hp3 with ⟨e, he, hpe⟩
      cases e with
      | ok d =>
        refine ⟨d, he, ?_⟩
        injection hpe with hpe
        rw [← hps, ← hpe]
      | error u => cases hpe
  · decide

/-- Witness for C8: the head-is-maximal property applied at the concrete
example list. -/
theorem c8_witness :
    ∃ p ∈ procPairs procListExample,
      p.2 = "b (2)" ∧ ∀ q ∈ procPairs procListExample, q.1 ≤ p.1 :=
  (c8_process_ranking.1 procListExample).2.2.1 "b (2)" (by decide)

theorem linuxSnapshot_keys (env : LinuxEnv) (up : Value) :
    (linuxSnapshotList env up).map Prod.fst = snapshotKeys := rfl

theorem winSnapshot_keys (env : WindowsEnv) (up : Value) :
    (winSnapshotList env up).map Prod.fst = snapshotKeys := rfl

/-- C1: over every environment in the claim's failure space — the metrics
library absent, any subprocess failing, any file missing, and, when the
library is present, its one unguarded call `boot_time()` returning —
`gather_info` on both platforms returns (never raises) a dictionary
whose keys are exactly the nineteen declared fields, in order. -/
theorem c1_snapshot_structurally_complete :
    (∀ env : LinuxEnv, linuxBootOk env →
      ∃ s, gatherLinux env = .ok s ∧ s.map Prod.fst = snapshotKeys) ∧
    (∀ env : WindowsEnv, winBootOk env →
      ∃ s, gatherWindows env = .ok s ∧ s.map Prod.fst = snapshotKeys) := by
  constructor
  · intro env h
    rcases hps : env.psutil with _ | ps
    · refine ⟨linuxSnapshotList env (.num 0), ?_, linuxSnapshot_keys env _⟩
      simp only [gatherLinux, hps]
      rfl
    · rcases h ps hps with ⟨t, hbt⟩
      refine ⟨linuxSnapshotList env (.num ((pyInt t : ℤ) : ℚ)), ?_, linuxSnapshot_keys env _⟩
      simp only [gatherLinux, hps, hbt]
      rfl
  · intro env h
    rcases hps : env.psutil with _ | ps
    · refine ⟨winSnapshotList env .null, ?_, winSnapshot_keys env _⟩
      simp only [gatherWindows, hps]
      rfl
    · rcases h ps hps with ⟨t, hbt⟩
      refine ⟨winSnapshotList env (.num ((pyInt t : ℤ) : ℚ)), ?_, winSnapshot_keys env _⟩
      simp only [gatherWindows, hps, hbt]
      rfl

/-- A Linux environment with every data source unavailable. -/
def linuxEnvAllDown : LinuxEnv :=
  { node := "", sockIp := .error (), dnsIp := .error (), psutil := none,
    thermalDir := none, nvidiaSmi := .error (), lspci := .error (),
    procMounts := none, statvfs := fun _ => .error (), osRelease := none,
    uname := .error (), procCpuinfo := none }

/-- A Windows environment with every data source unavailable. -/
def winEnvAllDown : WindowsEnv :=
  { node := "", sockIp := .error (), dnsIp := .error (), psutil := none,
    wmi := none, platformProcessor := "", unameProcessor := none,
    nvidiaSmi := .error (), gputil := none, uname := .error (),
    sysName := "", sysVersion := "" }

/-- Witness for C1: both gatherers evaluated with every source down. -/
theorem c1_witness :
    (∃ s, gatherLinux linuxEnvAllDown = .ok s ∧ s.map Prod.fst = snapshotKeys) ∧
    (∃ s, gatherWindows winEnvAllDown = .ok s ∧ s.map Prod.fst = snapshotKeys) :=
  ⟨c1_snapshot_structurally_complete.1 linuxEnvAllDown (fun _ h => nomatch h),
   c1_snapshot_structurally_complete.2 winEnvAllDown (fun _ h => nomatch h)⟩

/-- The C2 counterexample environment: psutil present, `cpu_percent`
returning 10, and `cpu_freq()` returning an object whose `current` is 0. -/
def winEnvZeroFreq : WindowsEnv :=
  { node := "", sockIp := .error (), dnsIp := .error (),
    psutil := some
      { cpuPercent := .ok 10, cpuFreq := .ok (some ⟨0, 0, 0⟩),
        hasSensors := false, sensors := .error (), virtualMemory := .error (),
        diskUsage := fun _ => .error (), diskPartitions := .error (),
        processIter := .error (), bootTime := .ok 0 },
    wmi := none, platformProcessor := "", unameProcessor := none,
    nvidiaSmi := .error (), gputil := none, uname := .error (),
    sysName := "", sysVersion := "" }

/-- Counterexample to C2 as stated: the highest-priority source (psutil)
reports a current frequency of 0, a legitimate reading per the claim,
yet the Windows snapshot binds cpu_frequency to the null marker rather
than to 0. -/
theorem c2_counterexample :
    ∃ s, gatherWindows winEnvZeroFreq = .ok s ∧
      s.lookup "cpu_frequency" = some Value.null ∧
      some Value.null ≠ some (Value.num 0) :=
  ⟨winSnapshotList winEnvZeroFreq (.num ((pyInt 0 : ℤ) : ℚ)), rfl, rfl,
   fun h => Value.noConfusion (Option.some.inj h)⟩

/-- C2 as amended: a zero or empty-string reading is conflated with
absence by the Python truthiness checks: a psutil `cpu_freq().current`
of 0 resolves to the unknown marker (only a non-zero current is
returned), and in the resolver's `or`-chains a zero or empty-string
candidate falls through to the next source. -/
theorem c2_zero_conflation :
    (∀ (env : WindowsEnv) (ps : PsutilWinEnv) (u : ℚ) (f : FreqObj),
      env.psutil = some ps → ps.cpuPercent = .ok u → ps.cpuFreq = .ok (some f) →
      ((f.fcur = 0 → (winCpuUsageFreq env).2 = none) ∧
       (f.fcur ≠ 0 → (winCpuUsageFreq env).2 = some f.fcur))) ∧
    (∀ b : Option ℚ, pyOr (some 0) b = b) ∧
    (∀ b : Option String, pyOrStr (some "") b = b) := by
  refine ⟨?_, pyOr_zero, fun b => rfl⟩
  intro env ps u f hps hu hf
  constructor
  · intro hz
    simp [winCpuUsageFreq, hps, hu, hf, hz]
  · intro hz
    simp [winCpuUsageFreq, hps, hu, hf, hz]

/-- Witness for C2's amended statement, at the zero-frequency environment. -/
theorem c2_witness : (winCpuUsageFreq winEnvZeroFreq).2 = none :=
  (c2_zero_conflation.1 winEnvZeroFreq _ 10 ⟨0, 0, 0⟩ rfl rfl rfl).1 rfl

/-- A Linux environment whose psutil reports a legitimate zero CPU
utilization (and no frequency object), with every other source down. -/
def linuxEnvZeroUsage : LinuxEnv :=
  { node := "", sockIp := .error (), dnsIp := .error (),
    psutil := some
      { cpuPercent := .ok 0, cpuFreq := .ok none, hasSensors := false,
        sensors := .error (), virtualMemory := .error (),
        diskPartitions := .error (), diskUsage := fun _ => .error (),
        processIter := .error (), bootTime := .ok 0 },
    thermalDir := none, nvidiaSmi := .error (), lspci := .error (),
    procMounts := none, statvfs := fun _ => .error (), osRelease := none,
    uname := .error (), procCpuinfo := none }

/-- C10: the unknown-marker representation differs by platform: with no
source resolving a numeric metric, the Linux snapshot binds uptime,
cpu_usage, cpu_frequency, gpu_usage, gpu_frequency, cpu_temperature,
gpu_temperature, memory_usage and memory_max to the number 0, while the
Windows snapshot binds the same fields to the null marker; and a
legitimate zero cpu_percent reading produces the same Linux output 0 as
an absent one, so the two are indistinguishable there. -/
theorem c10_unknown_markers :
    (∀ env : LinuxEnv, env.psutil = none → env.nvidiaSmi = .error () →
      env.lspci = .error () → env.thermalDir = none →
      ∃ s, gatherLinux env = .ok s ∧
        s.lookup "uptime" = some (Value.num 0) ∧
        s.lookup "cpu_usage" = some (Value.num 0) ∧
        s.lookup "cpu_frequency" = some (Value.num 0) ∧
        s.lookup "gpu_usage" = some (Value.num 0) ∧
        s.lookup "gpu_frequency" = some (Value.num 0) ∧
        s.lookup "cpu_temperature" = some (Value.num 0) ∧
        s.lookup "gpu_temperature" = some (Value.num 0) ∧
        s.lookup "memory_usage" = some (Value.num 0) ∧
        s.lookup "memory_max" = some (Value.num 0)) ∧
    (∀ env : WindowsEnv, env.psutil = none → env.nvidiaSmi = .error () →
      env.gputil = none → env.wmi = none →
      ∃ s, gatherWindows env = .ok s ∧
        s.lookup "uptime" = some Value.null ∧
        s.lookup "cpu_usage" = some Value.null ∧
        s.lookup "cpu_frequency" = some Value.null ∧
        s.lookup "gpu_usage" = some Value.null ∧
        s.lookup "gpu_frequency" = some Value.null ∧
        s.lookup "cpu_temperature" = some Value.null ∧
        s.lookup "gpu_temperature" = some Value.null ∧
        s.lookup "memory_usage" = some Value.null ∧
        s.lookup "memory_max" = some Value.null) ∧
    (∃ s, gatherLinux linuxEnvZeroUsage = .ok s ∧
      s.lookup "cpu_usage" = some (Value.num 0)) := by
  refine ⟨?_, ?_, ?_⟩
  · intro env h1 h2 h3 h4
    refine ⟨linuxSnapshotList env (.num 0), ?_, rfl, ?_, ?_, ?_, ?_, ?_, ?_, ?_, ?_⟩
    · simp only [gatherLinux, h1]
      rfl
    · rw [show (linuxSnapshotList env (.num 0)).lookup "cpu_usage"
          = some (numOr0 (linuxCpuUsageFreq env).1) from rfl]
      simp [linuxCpuUsageFreq, h1, numOr0]
    · rw [show (linuxSnapshotList env (.num 0)).lookup "cpu_frequency"
          = some (intOr0 (linuxCpuUsageFreq env).2) from rfl]
      simp [linuxCpuUsageFreq, h1, intOr0]
    · rw [show (linuxSnapshotList env (.num 0)).lookup "gpu_usage"
          = some (numOr0 (linuxGpu env).usage) from rfl]
      simp [linuxGpu, h2, h3, numOr0]
    · rw [show (linuxSnapshotList env (.num 0)).lookup "gpu_frequency"
          = some (numOr0 (linuxGpu env).frequency) from rfl]
      simp [linuxGpu, h2, h3, numOr0]
    · rw [show (linuxSnapshotList env (.num 0)).lookup "cpu_temperature"
          = some (numOr0 (linuxCpuTemperature env)) from rfl]
      simp [linuxCpuTemperature, h1, h4, numOr0]
    · rw [show (linuxSnapshotList env (.num 0)).lookup "gpu_temperature"
          = some (numOr0 (linuxGpu env).temperature) from rfl]
      simp [linuxGpu, h2, h3, numOr0]
    · rw [show (linuxSnapshotList env (.num 0)).lookup "memory_usage"
          = some (numOr0 (linuxMemory env).1) from rfl]
      simp [linuxMemory, h1, numOr0]
    · rw [show (linuxSnapshotList env (.num 0)).lookup "memory_max"
          = some (intOr0 (linuxMemory env).2) from rfl]
      simp [linuxMemory, h1, intOr0]
  · intro env h1 h2 h3 h4
    have hgpu : winGpuInfo env = ⟨none, none, none, none⟩ := by
      simp [winGpuInfo, h2, winGpuGputil, h3, winGpuWmi, h4, anyGpuField]
    refine ⟨winSnapshotList env .null, ?_, rfl, ?_, ?_, ?_, ?_, ?_, ?_, ?_, ?_⟩
    · simp only [gatherWindows, h1]
      rfl
    · rw [show (winSnapshotList env .null).lookup "cpu_usage"
          = some (numOrNull (winCpuUsageFreq env).1) from rfl]
      simp [winCpuUsageFreq, h1, numOrNull]
    · rw [show (winSnapshotList env .null).lookup "cpu_frequency"
          = some (numOrNull (winCpuUsageFreq env).2) from rfl]
      simp [winCpuUsageFreq, h1, numOrNull]
    · rw [show (winSnapshotList env .null).lookup "gpu_usage"
          = some (numOrNull (winGpuInfo env).usage) from rfl]
      simp [hgpu, numOrNull]
    · rw [show (winSnapshotList env .null).lookup "gpu_frequency"
          = some (numOrNull (winGpuInfo env).frequency) from rfl]
      simp [hgpu, numOrNull]
    · rw [show (winSnapshotList env .null).lookup "cpu_temperature"
          = some (numOrNull (winCpuTemperature env)) from rfl]
      simp [winCpuTemperature, h1, numOrNull]
    · rw [show (winSnapshotList env .null).lookup "gpu_temperature"
          = some (numOrNull (winGpuInfo env).temperature) from rfl]
      simp [hgpu, numOrNull]
    · rw [show (winSnapshotList env .null).lookup "memory_usage"
          = some (numOrNull (winMemory env).1) from rfl]
      simp [winMemory, h1, numOrNull]
    · rw [show (winSnapshotList env .null).lookup "memory_max"
          = some (intOrNull (winMemory env).2) from rfl]
      simp [winMemory, h1, intOrNull]
  · exact ⟨linuxSnapshotList linuxEnvZeroUsage (.num ((pyInt 0 : ℤ) : ℚ)), rfl, rfl⟩

/-- Witness for C10: the two marker policies evaluated with every source
down on each platform. -/
theorem c10_witness :
    (∃ s, gatherLinux linuxEnvAllDown = .ok s ∧
      s.lookup "uptime" = some (Value.num 0) ∧
      s.lookup "cpu_usage" = some (Value.num 0) ∧
      s.lookup "cpu_frequency" = some (Value.num 0) ∧
      s.lookup "gpu_usage" = some (Value.num 0) ∧
      s.lookup "gpu_frequency" = some (Value.num 0) ∧
      s.lookup "cpu_temperature" = some (Value.num 0) ∧
      s.lookup "gpu_temperature" = some (Value.num 0) ∧
      s.lookup "memory_usage" = some (Value.num 0) ∧
      s.lookup "memory_max" = some (Value.num 0)) ∧
    (∃ s, gatherWindows winEnvAllDown = .ok s ∧
      s.lookup "uptime" = some Value.null ∧
      s.lookup "cpu_usage" = some Value.null ∧
      s.lookup "cpu_frequency" = some Value.null ∧
      s.lookup "gpu_usage" = some Value.null ∧
      s.lookup "gpu_frequency" = some Value.null ∧
      s.lookup "cpu_temperature" = some Value.null ∧
      s.lookup "gpu_temperature" = some Value.null ∧
      s.lookup "memory_usage" = some Value.null ∧
      s.lookup "memory_max" = some Value.null) :=
  ⟨c10_unknown_markers.1 linuxEnvAllDown rfl rfl rfl rfl,
   c10_unknown_markers.2.1 winEnvAllDown rfl rfl rfl rfl⟩
